import Mathlib

/-!
Verification of the S3 media handler (`server/media/s3/s3.go`) of the
tinode-chat repository.  The Go code is shallowly embedded: each handler
method becomes a pure Lean function over an explicit environment record
that supplies the results of the external collaborator calls (CORS policy
function, identifier resolver, file-record store, AWS SDK presigner and
uploader).  Each function mirrors the control flow of the source line by
line and additionally records, in boolean fields of its result, which
external calls were made, so that "no backend contact" style claims are
statable.
-/

namespace S3Media

/-- A file identifier (`types.Uid`).  The source treats it as an opaque
value with an `IsZero` test and a `String32` canonical encoding; we model
it as a natural number, zero playing the role of the zero Uid. -/
abbrev Uid := Nat

/-- `types.FileDef`: the file record held by the external store.  Only the
fields the s3 handler reads or writes are modelled. -/
structure FileDef where
  id : String
  uid : Uid
  mimeType : String
  location : String
  etag : String
  deriving Repr, DecidableEq

/-- `awsconfig` after JSON parsing (`s3.go` lines 39-51). -/
structure Awsconfig where
  accessKeyId : String
  secretAccessKey : String
  region : String
  disableSSL : Bool
  forcePathStyle : Bool
  endpoint : String
  bucketName : String
  corsOrigins : List String
  serveURL : String
  presignTTL : Int
  cacheControl : String
  deriving Repr, DecidableEq

/-- Errors surfaced by the handler.  `notFound` is `types.ErrNotFound`;
`storeErr` a propagated file-record store error; `signErr` a presign
failure; `backendErr` an S3 upload error. -/
inductive MediaErr where
  | notFound
  | storeErr (msg : String)
  | signErr (msg : String)
  | backendErr (msg : String)
  deriving Repr, DecidableEq

/-- HTTP headers, as an association list from header name to value list
(Go's `http.Header` is `map[string][]string`). -/
abbrev HHeaders := List (String × List String)

/-- `http.Header.Get`: first value for the key, `""` when absent. -/
def hGet (hs : HHeaders) (key : String) : String :=
  match hs.find? (fun p => p.1 = key) with
  | some (_, v :: _) => v
  | _ => ""

/-- Surround a string with double quotes, as the source does with
`` `"` + fdef.ETag + `"` ``. -/
def quoteTag (s : String) : String := "\"" ++ s ++ "\""

/-- `strings.Trim(s, "\"")`: remove all leading and trailing double-quote
characters from a string. -/
def trimQuotes (s : String) : String :=
  let l := s.toList.dropWhile (fun c => c = '"')
  String.mk ((l.reverse.dropWhile (fun c => c = '"')).reverse)

/-- The AWS request built in the GET / HEAD branch of `Headers`
(`s3.go` lines 191-209): a `GetObjectRequest` carrying response
overrides, or a plain `HeadObjectRequest`. -/
inductive AwsReq where
  | getObject (bucket key responseCacheControl responseContentType : String)
      (responseContentDisposition : Option String)
  | headObject (bucket key : String)
  deriving Repr, DecidableEq

/-- Results of the external calls `Headers` may make, supplied as an
oracle: the CORS policy function `media.CORSHandler`, the identifier
resolver `media.GetIdFromUrl`, the file-record store `store.Files.Get`,
the `String32` key encoding, the parsed `asatt` query flag, and the
presigner (`awsReq.Presign` returns a URL together with a possible
error). -/
structure HeadersEnv where
  corsHeaders : HHeaders
  corsStatus : Nat
  fid : Uid
  string32 : Uid → String
  storeGet : Except String (Option FileDef)
  asatt : Bool
  presign : String × Option String

/-- Result of `Headers`: the returned header map (`none` for Go's nil),
status and error, plus a trace of which external calls were reached. -/
structure HeadersResult where
  headers : Option HHeaders
  status : Nat
  error : Option MediaErr
  awsReq : Option AwsReq
  calledGetId : Bool
  calledStore : Bool
  calledPresign : Bool
  deriving Repr, DecidableEq

/-- `getFileRecord` (`s3.go` lines 294-303): propagate a store error,
turn a missing record into `ErrNotFound`. -/
def getFileRecord (res : Except String (Option FileDef)) :
    Except MediaErr FileDef :=
  match res with
  | .error e => .error (.storeErr e)
  | .ok none => .error .notFound
  | .ok (some fd) => .ok fd

/-- `Headers` (`s3.go` lines 166-225).  Mirrors the source control flow:
CORS short-circuit for a nonzero CORS status or POST/PUT; identifier
resolution with `NotFound` on a zero id; file-record lookup; the
`If-None-Match` 304 short-circuit; construction of the presigned
GET/HEAD request and the 308 redirect response; and the final
`nil, 0, nil` fall-through for other methods.  Note that line 168 of the
source reassigns `headers` to the map returned by `media.CORSHandler`,
so the later `headers.Get("If-None-Match")` reads from that returned map
(`env.corsHeaders` here), which the external CORS policy function
derives from the request headers. -/
def headersFn (conf : Awsconfig) (env : HeadersEnv) (method : String) :
    HeadersResult :=
  let headers := env.corsHeaders
  let status := env.corsStatus
  if status ≠ 0 ∨ method = "POST" ∨ method = "PUT" then
    ⟨some headers, status, none, none, false, false, false⟩
  else if env.fid = 0 then
    ⟨none, 0, some .notFound, none, true, false, false⟩
  else
    match getFileRecord env.storeGet with
    | .error e => ⟨none, 0, some e, none, true, true, false⟩
    | .ok fdef =>
      if fdef.etag ≠ "" ∧ hGet headers "If-None-Match" = quoteTag fdef.etag then
        ⟨some [("ETag", [quoteTag fdef.etag]),
               ("Cache-Control", [conf.cacheControl])],
         304, none, none, true, true, false⟩
      else
        let awsReq : Option AwsReq :=
          if method = "GET" then
            some (.getObject conf.bucketName (env.string32 env.fid)
              conf.cacheControl fdef.mimeType
              (if env.asatt then some "attachment" else none))
          else if method = "HEAD" then
            some (.headObject conf.bucketName (env.string32 env.fid))
          else
            none
        match awsReq with
        | some req =>
          let url := env.presign.1
          let err := env.presign.2
          ⟨some [("Location", [url]),
                 ("ETag", [quoteTag fdef.etag]),
                 ("Content-Type", ["application/json; charset=utf-8"]),
                 ("Cache-Control", [conf.cacheControl])],
           308, err.map MediaErr.signErr, some req, true, true, true⟩
        | none => ⟨none, 0, none, none, true, true, false⟩

/-! ### Init (`s3.go` lines 73-163) -/

/-- A Go error as produced by the AWS SDK: either an `awserr.Error`
carrying a code (matched with `aerr.Code()` in the source) or a plain
error that does not implement the `awserr.Error` interface. -/
inductive AwsGoErr where
  | coded (code msg : String)
  | plain (msg : String)
  deriving Repr, DecidableEq

/-- Errors returned by `Init`: a config/validation error (`errors.New`)
or a propagated AWS error. -/
inductive InitErr where
  | configErr (msg : String)
  | awsErr (e : AwsGoErr)
  deriving Repr, DecidableEq

/-- Results of the S3 calls `Init` may make, supplied as an oracle:
`HeadBucket`, `CreateBucket` and `PutBucketCors` each either succeed
(`none`) or fail with a Go error. -/
structure InitEnv where
  headBucket : Option AwsGoErr
  createBucket : Option AwsGoErr
  putBucketCors : Option AwsGoErr

/-- Result of `Init`: its error, the effective (post-default) config when
validation passed, and a trace of which S3 calls were made. -/
structure InitResult where
  error : Option InitErr
  effConf : Option Awsconfig
  calledHead : Bool
  calledCreate : Bool
  calledCors : Bool
  deriving Repr, DecidableEq

/-- The defaulting part of `Init` (`s3.go` lines 91-99): a non-positive
presign TTL becomes 120, an empty cache-control becomes `no-cache,
must-revalidate`, an empty serve URL becomes `/v0/file/s/`. -/
def applyDefaults (c : Awsconfig) : Awsconfig :=
  { c with
    presignTTL := if c.presignTTL ≤ 0 then 120 else c.presignTTL
    cacheControl := if c.cacheControl = "" then "no-cache, must-revalidate" else c.cacheControl
    serveURL := if c.serveURL = "" then "/v0/file/s/" else c.serveURL }

/-- The validation-and-defaults part of `Init` (`s3.go` lines 79-99):
required fields must be non-empty, then defaults are applied. -/
def initConfig (c : Awsconfig) : Except String Awsconfig :=
  if c.accessKeyId = "" then .error "missing Access Key ID"
  else if c.secretAccessKey = "" then .error "missing Secret Access Key"
  else if c.region = "" then .error "missing Region"
  else if c.bucketName = "" then .error "missing Bucket"
  else .ok (applyDefaults c)

/-- The head-probe error test of `s3.go` line 122: the error is hard
unless it is an `awserr.Error` with code `NoSuchBucket`. -/
def hardHeadErr : AwsGoErr → Bool
  | .coded code _ => code ≠ "NoSuchBucket"
  | .plain _ => true

/-- The benign-creation-race test of `s3.go` lines 131-140: an
`awserr.Error` whose code is `BucketAlreadyExists`,
`BucketAlreadyOwnedByYou` or `OperationAborted`. -/
def benignCreateErr : AwsGoErr → Bool
  | .coded code _ =>
    code = "BucketAlreadyExists" || code = "BucketAlreadyOwnedByYou" ||
      code = "OperationAborted"
  | .plain _ => false

/-- The bucket-provisioning part of `Init` (`s3.go` lines 115-162):
probe the bucket with `HeadBucket`; on success return immediately.  A
head failure other than an `awserr` with code `NoSuchBucket` is fatal.
Otherwise create the bucket; a creation failure whose code is benign
(`benignCreateErr`) is cleared, any other creation failure is returned.
When creation succeeds, `PutBucketCors` is called and its error
returned. -/
def initProvision (env : InitEnv) (conf : Awsconfig) : InitResult :=
  match env.headBucket with
  | none => ⟨none, some conf, true, false, false⟩
  | some herr =>
    if hardHeadErr herr then
      ⟨some (.awsErr herr), some conf, true, false, false⟩
    else
      match env.createBucket with
      | some cerr =>
        if benignCreateErr cerr then ⟨none, some conf, true, true, false⟩
        else ⟨some (.awsErr cerr), some conf, true, true, false⟩
      | none =>
        ⟨(env.putBucketCors).map InitErr.awsErr, some conf, true, true, true⟩

/-- `Init` in full: validation and defaults, then provisioning.  (The
JSON unmarshalling and SDK session construction of the source are
outside the model; `Init` here starts from the parsed config.) -/
def initFn (env : InitEnv) (c : Awsconfig) : InitResult :=
  match initConfig c with
  | .error e => ⟨some (.configErr e), none, false, false, false⟩
  | .ok conf => initProvision env conf

/-! ### Upload (`s3.go` lines 228-264) -/

/-- `readerCounter` (`s3.go` lines 59-70): wraps a stream, modelled as a
list of chunks still to be read, and counts the bytes handed out.  The
count is updated with `atomic.AddInt64`; atomicity is invisible in the
sequential model. -/
structure ReaderCounter where
  count : Int
  chunks : List (List Nat)
  deriving Repr, DecidableEq

/-- One `Read` call on the counter: hand out the next chunk and add its
length to the count. -/
def ReaderCounter.read (rc : ReaderCounter) : List Nat × ReaderCounter :=
  match rc.chunks with
  | [] => ([], { rc with chunks := [] })
  | c :: rest => (c, { count := rc.count + c.length, chunks := rest })

/-- The uploader draining the counter to end of stream (the streaming
multipart upload reads the body until EOF). -/
def ReaderCounter.readAll (rc : ReaderCounter) : ReaderCounter :=
  match h : rc.chunks with
  | [] => rc
  | c :: rest => ReaderCounter.readAll { count := rc.count + c.length, chunks := rest }
  termination_by rc.chunks.length
  decreasing_by simp [h]

/-- The backend's answer to a successful `uploader.Upload`: the field
`result.ETag` is a `*string`, hence optional. -/
structure UploadOutput where
  etag : Option String
  deriving Repr, DecidableEq

/-- Results of the external calls `Upload` may make, supplied as an
oracle: `store.Files.StartUpload`, the s3manager upload itself, the
`String32` key encoding and `mime.ExtensionsByType`. -/
structure UploadEnv where
  startUpload : Option String
  uploadResult : Except String UploadOutput
  string32 : Uid → String
  extensionsByType : String → List String

/-- Result of `Upload`: the returned public URL, byte count and error,
the (possibly updated) file record, and whether the backend upload
operation was invoked. -/
structure UploadResult where
  url : String
  size : Int
  error : Option MediaErr
  fdef : FileDef
  calledBackend : Bool
  deriving Repr, DecidableEq

/-- `Upload` (`s3.go` lines 228-264).  Derive the storage key from the
record's Uid; mark the upload started in the store, failing fast on
error; stream the body to the backend through a `readerCounter`; on
backend failure return that error; on success append the first extension
inferred from the MIME type to the record id, set the record's location
to the key and its ETag to the backend tag trimmed of `"` characters,
and return the serve URL composed with the file name plus the counted
bytes. -/
def uploadFn (conf : Awsconfig) (env : UploadEnv) (fdef : FileDef)
    (file : List (List Nat)) : UploadResult :=
  let key := env.string32 fdef.uid
  match env.startUpload with
  | some e => ⟨"", 0, some (.storeErr e), fdef, false⟩
  | none =>
    let rc := ReaderCounter.readAll ⟨0, file⟩
    match env.uploadResult with
    | .error e => ⟨"", 0, some (.backendErr e), fdef, true⟩
    | .ok result =>
      let ext := env.extensionsByType fdef.mimeType
      let fname := fdef.id ++ (match ext with | [] => "" | e :: _ => e)
      let fdef' :=
        { fdef with
          location := key
          etag := match result.etag with
                  | some t => trimQuotes t
                  | none => fdef.etag }
      ⟨conf.serveURL ++ fname, rc.count, none, fdef', true⟩

/-! ### Fixtures used by witnesses and counterexamples -/

/-- A post-init configuration fixture. -/
def conf1 : Awsconfig :=
  ⟨"k", "s", "r", false, false, "", "b", [], "/v0/file/s/", 120, "cc"⟩

/-- A file record fixture with integrity tag `T` and MIME type
`image/png`. -/
def fdef1 : FileDef := ⟨"f1", 1, "image/png", "", "T"⟩

/-- A concrete `String32` encoding stand-in. -/
def string32fix : Uid → String := fun u => "k" ++ toString u

/-- Environment: CORS passes (status 0), id resolves, record found,
presigning succeeds. -/
def env1 : HeadersEnv :=
  ⟨[], 0, 1, string32fix, .ok (some fdef1), false, ("https://signed.example", none)⟩

/-- Like `env1` but presigning fails. -/
def env2 : HeadersEnv := { env1 with presign := ("", some "boom") }

/-- Like `env1` but the CORS-returned headers carry a matching
`If-None-Match`. -/
def env3 : HeadersEnv := { env1 with corsHeaders := [("If-None-Match", ["\"T\""])] }

/-- Like `env1` but the URL does not resolve to an identifier. -/
def env4 : HeadersEnv := { env1 with fid := 0 }

/-- Like `env1` but the store has no record for the identifier. -/
def env5 : HeadersEnv := { env1 with storeGet := .ok none }

/-! ### Claims about `Headers` -/

/-- C1, counterexample: on a GET request that reaches the redirect step
(CORS status 0, record found with MIME type `image/png`, no
`If-None-Match` match, presigning succeeds), `Headers` returns 308 but
its `Content-Type` header is the hardcoded `application/json;
charset=utf-8`, not the record's stored MIME type. -/
theorem headers_contentType_hardcoded :
    (headersFn conf1 env1 "GET").status = 308 ∧
    (headersFn conf1 env1 "GET").error = none ∧
    ((headersFn conf1 env1 "GET").headers.map
        (fun hs => hGet hs "Content-Type")) =
      some "application/json; charset=utf-8" ∧
    fdef1.mimeType = "image/png" ∧
    ¬ ((headersFn conf1 env1 "GET").headers.map
        (fun hs => hGet hs "Content-Type")) = some fdef1.mimeType := by
  decide

/-- C1 (amended): on a GET or HEAD request with CORS status 0, a
resolving identifier, an existing record, no 304 short-circuit and a
successful presign, `Headers` returns status 308 with `Location` the
presigned URL, `ETag` the quoted integrity tag, `Cache-Control` the
configured cache-control, and `Content-Type` the fixed string
`application/json; charset=utf-8`; the record's stored MIME type is
honored as the `ResponseContentType` of the presigned GET request
instead. -/
theorem headers_redirect_ok (conf : Awsconfig) (env : HeadersEnv)
    (method : String) (fdef : FileDef)
    (hm : method = "GET" ∨ method = "HEAD")
    (hc : env.corsStatus = 0)
    (hf : env.fid ≠ 0)
    (hs : env.storeGet = .ok (some fdef))
    (h304 : ¬ (fdef.etag ≠ "" ∧
      hGet env.corsHeaders "If-None-Match" = quoteTag fdef.etag))
    (hp : env.presign.2 = none) :
    (headersFn conf env method).status = 308 ∧
    (headersFn conf env method).error = none ∧
    (headersFn conf env method).headers =
      some [("Location", [env.presign.1]),
            ("ETag", [quoteTag fdef.etag]),
            ("Content-Type", ["application/json; charset=utf-8"]),
            ("Cache-Control", [conf.cacheControl])] ∧
    (method = "GET" →
      (headersFn conf env method).awsReq =
        some (.getObject conf.bucketName (env.string32 env.fid)
          conf.cacheControl fdef.mimeType
          (if env.asatt then some "attachment" else none))) := by
  rcases hm with rfl | rfl <;>
    simp [headersFn, hc, hf, hs, getFileRecord, h304, hp]

/-- Witness for `headers_redirect_ok` at the `env1` fixture. -/
theorem headers_redirect_ok_witness :
    (headersFn conf1 env1 "GET").status = 308 ∧
    (headersFn conf1 env1 "GET").error = none ∧
    (headersFn conf1 env1 "GET").headers =
      some [("Location", [env1.presign.1]),
            ("ETag", [quoteTag fdef1.etag]),
            ("Content-Type", ["application/json; charset=utf-8"]),
            ("Cache-Control", [conf1.cacheControl])] ∧
    ("GET" = "GET" →
      (headersFn conf1 env1 "GET").awsReq =
        some (.getObject conf1.bucketName (env1.string32 env1.fid)
          conf1.cacheControl fdef1.mimeType
          (if env1.asatt then some "attachment" else none))) :=
  headers_redirect_ok conf1 env1 "GET" fdef1 (Or.inl rfl) rfl
    (by decide) rfl (by decide) rfl

/-- C2, counterexample: when presigning fails at the redirect step,
`Headers` surfaces the signing error but still returns a full header set
(`Location` holding the string the presigner returned) and status 308 —
the error is not accompanied by an absent header set. -/
theorem headers_signFail_withHeaders :
    (headersFn conf1 env2 "GET").error = some (.signErr "boom") ∧
    (headersFn conf1 env2 "GET").headers ≠ none ∧
    (headersFn conf1 env2 "GET").status = 308 := by
  decide

/-- C2 (amended): on a GET or HEAD request that reaches the
redirect-issuing step, if presigning fails then `Headers` surfaces the
signing error, but alongside it returns status 308 and the full header
set, with `Location` holding whatever URL string the presigner returned;
callers must check the error before using the headers. -/
theorem headers_signFail (conf : Awsconfig) (env : HeadersEnv)
    (method : String) (fdef : FileDef) (msg : String)
    (hm : method = "GET" ∨ method = "HEAD")
    (hc : env.corsStatus = 0)
    (hf : env.fid ≠ 0)
    (hs : env.storeGet = .ok (some fdef))
    (h304 : ¬ (fdef.etag ≠ "" ∧
      hGet env.corsHeaders "If-None-Match" = quoteTag fdef.etag))
    (hp : env.presign.2 = some msg) :
    (headersFn conf env method).error = some (.signErr msg) ∧
    (headersFn conf env method).status = 308 ∧
    (headersFn conf env method).headers =
      some [("Location", [env.presign.1]),
            ("ETag", [quoteTag fdef.etag]),
            ("Content-Type", ["application/json; charset=utf-8"]),
            ("Cache-Control", [conf.cacheControl])] := by
  rcases hm with rfl | rfl <;>
    simp [headersFn, hc, hf, hs, getFileRecord, h304, hp]

/-- Witness for `headers_signFail` at the `env2` fixture. -/
theorem headers_signFail_witness :
    (headersFn conf1 env2 "GET").error = some (.signErr "boom") ∧
    (headersFn conf1 env2 "GET").status = 308 ∧
    (headersFn conf1 env2 "GET").headers =
      some [("Location", [env2.presign.1]),
            ("ETag", [quoteTag fdef1.etag]),
            ("Content-Type", ["application/json; charset=utf-8"]),
            ("Cache-Control", [conf1.cacheControl])] :=
  headers_signFail conf1 env2 "GET" fdef1 "boom" (Or.inl rfl) rfl
    (by decide) rfl (by decide) rfl

/-- C3: on a GET or HEAD request with CORS status 0, a resolving
identifier and an existing record whose integrity tag is non-empty, if
the `If-None-Match` header exactly equals the quoted tag then `Headers`
returns status 304 with exactly the quoted-ETag and Cache-Control
headers, no `Location`, no error, and the presigner is never called. -/
theorem headers_notModified (conf : Awsconfig) (env : HeadersEnv)
    (method : String) (fdef : FileDef)
    (hm : method = "GET" ∨ method = "HEAD")
    (hc : env.corsStatus = 0)
    (hf : env.fid ≠ 0)
    (hs : env.storeGet = .ok (some fdef))
    (he : fdef.etag ≠ "")
    (hmatch : hGet env.corsHeaders "If-None-Match" = quoteTag fdef.etag) :
    headersFn conf env method =
      ⟨some [("ETag", [quoteTag fdef.etag]),
             ("Cache-Control", [conf.cacheControl])],
       304, none, none, true, true, false⟩ := by
  rcases hm with rfl | rfl <;>
    simp [headersFn, hc, hf, hs, getFileRecord, he, hmatch]

/-- Witness for `headers_notModified` at the `env3` fixture. -/
theorem headers_notModified_witness :
    headersFn conf1 env3 "GET" =
      ⟨some [("ETag", [quoteTag fdef1.etag]),
             ("Cache-Control", [conf1.cacheControl])],
       304, none, none, true, true, false⟩ :=
  headers_notModified conf1 env3 "GET" fdef1 (Or.inl rfl) rfl
    (by decide) rfl (by decide) (by decide)

/-- C4: for a POST or PUT request, or whenever the CORS policy function
returns a nonzero status, `Headers` returns the CORS-computed headers
and status immediately with no error, performing no identifier
resolution, no file-record lookup and no presign call. -/
theorem headers_corsShortCircuit (conf : Awsconfig) (env : HeadersEnv)
    (method : String)
    (h : method = "POST" ∨ method = "PUT" ∨ env.corsStatus ≠ 0) :
    headersFn conf env method =
      ⟨some env.corsHeaders, env.corsStatus, none, none,
       false, false, false⟩ := by
  rcases h with rfl | rfl | h
  · simp [headersFn]
  · simp [headersFn]
  · simp [headersFn, h]

/-- Witness for `headers_corsShortCircuit` on a POST request. -/
theorem headers_corsShortCircuit_witness :
    headersFn conf1 env1 "POST" =
      ⟨some env1.corsHeaders, env1.corsStatus, none, none,
       false, false, false⟩ :=
  headers_corsShortCircuit conf1 env1 "POST" (Or.inl rfl)

/-- C5: on a GET or HEAD request past the CORS step, if the URL does not
resolve to an identifier, or the store reports no record for the
resolved identifier, `Headers` fails with `NotFound`, returning nil
headers and status 0. -/
theorem headers_notFound (conf : Awsconfig) (env : HeadersEnv)
    (method : String)
    (hm : method = "GET" ∨ method = "HEAD")
    (hc : env.corsStatus = 0)
    (h : env.fid = 0 ∨ env.storeGet = .ok none) :
    (headersFn conf env method).headers = none ∧
    (headersFn conf env method).status = 0 ∧
    (headersFn conf env method).error = some .notFound := by
  rcases h with h | h
  · rcases hm with rfl | rfl <;> simp [headersFn, hc, h]
  · rcases hm with rfl | rfl <;>
      rcases hf : env.fid with _ | n <;>
      simp [headersFn, hc, h, hf, getFileRecord]

/-- Witness for `headers_notFound`: unresolvable id (`env4`) and missing
record (`env5`). -/
theorem headers_notFound_witness :
    ((headersFn conf1 env4 "GET").headers = none ∧
     (headersFn conf1 env4 "GET").status = 0 ∧
     (headersFn conf1 env4 "GET").error = some .notFound) ∧
    ((headersFn conf1 env5 "HEAD").headers = none ∧
     (headersFn conf1 env5 "HEAD").status = 0 ∧
     (headersFn conf1 env5 "HEAD").error = some .notFound) :=
  ⟨headers_notFound conf1 env4 "GET" (Or.inl rfl) rfl (Or.inl rfl),
   headers_notFound conf1 env5 "HEAD" (Or.inr rfl) rfl (Or.inr rfl)⟩

/-- C10: for a method that is none of GET, HEAD, POST, PUT, when the
CORS status is 0 and the record is found without an `If-None-Match`
match, `Headers` falls through to `nil, 0, nil`: no headers, status 0
(continue normal processing) and no error, with no presign call. -/
theorem headers_otherMethod (conf : Awsconfig) (env : HeadersEnv)
    (method : String) (fdef : FileDef)
    (hm : method ≠ "GET" ∧ method ≠ "HEAD" ∧ method ≠ "POST" ∧ method ≠ "PUT")
    (hc : env.corsStatus = 0)
    (hf : env.fid ≠ 0)
    (hs : env.storeGet = .ok (some fdef))
    (h304 : ¬ (fdef.etag ≠ "" ∧
      hGet env.corsHeaders "If-None-Match" = quoteTag fdef.etag)) :
    headersFn conf env method = ⟨none, 0, none, none, true, true, false⟩ := by
  obtain ⟨h1, h2, h3, h4⟩ := hm
  simp [headersFn, hc, hf, hs, getFileRecord, h304, h1, h2, h3, h4]

/-- Witness for `headers_otherMethod` on a DELETE request. -/
theorem headers_otherMethod_witness :
    headersFn conf1 env1 "DELETE" = ⟨none, 0, none, none, true, true, false⟩ :=
  headers_otherMethod conf1 env1 "DELETE" fdef1
    (by decide) rfl (by decide) rfl (by decide)

/-! ### Claims about `Init` -/

/-- `Init` always reports the effective config it validated, whatever
the provisioning outcome. -/
lemma initProvision_effConf (env : InitEnv) (conf : Awsconfig) :
    (initProvision env conf).effConf = some conf := by
  unfold initProvision
  rcases env.headBucket with _ | herr
  · rfl
  · dsimp only
    split
    · rfl
    · rcases env.createBucket with _ | cerr
      · rfl
      · dsimp only
        split <;> rfl

/-- A successful validation yields exactly the config with defaults
applied (`s3.go` lines 91-99). -/
lemma initConfig_ok_eq (c conf : Awsconfig) (h : initConfig c = .ok conf) :
    conf = applyDefaults c := by
  unfold initConfig at h
  repeat' split at h
  all_goals simp_all

/-- The config set at init (`{b, r, k, s}`, no TTL, no cache-control, no
serve URL) of the C6 scenario. -/
def c6conf : Awsconfig := ⟨"k", "s", "r", false, false, "", "b", [], "", 0, ""⟩

/-- Provisioning environment: bucket already exists. -/
def envA : InitEnv := ⟨none, none, none⟩

/-- Provisioning environment: bucket missing, creation loses a race
(`BucketAlreadyExists`). -/
def envB : InitEnv :=
  ⟨some (.coded "NoSuchBucket" "nsb"), some (.coded "BucketAlreadyExists" "dup"), none⟩

/-- Provisioning environment: bucket missing, creation fails with a
non-benign error. -/
def envC : InitEnv :=
  ⟨some (.coded "NoSuchBucket" "nsb"), some (.plain "net down"), none⟩

/-- C6: after any successful `Init`, the effective configuration has a
positive presign TTL and non-empty cache-control and serve-URL strings;
when the input config left the TTL non-positive, the cache-control
empty, or the serve URL empty, the effective values are 120 seconds,
`no-cache, must-revalidate` and `/v0/file/s/` respectively. -/
theorem init_defaults (env : InitEnv) (c : Awsconfig)
    (h : (initFn env c).error = none) :
    ∃ ec, (initFn env c).effConf = some ec ∧
      0 < ec.presignTTL ∧ ec.cacheControl ≠ "" ∧ ec.serveURL ≠ "" ∧
      (c.presignTTL ≤ 0 → ec.presignTTL = 120) ∧
      (c.cacheControl = "" → ec.cacheControl = "no-cache, must-revalidate") ∧
      (c.serveURL = "" → ec.serveURL = "/v0/file/s/") := by
  unfold initFn at h ⊢
  rcases hic : initConfig c with e | conf
  · rw [hic] at h
    exact Option.noConfusion h
  · have hconf := initConfig_ok_eq c conf hic
    subst hconf
    refine ⟨applyDefaults c, initProvision_effConf env (applyDefaults c),
      ?_, ?_, ?_, ?_, ?_, ?_⟩
    · unfold applyDefaults
      dsimp only
      split <;> omega
    · unfold applyDefaults
      dsimp only
      split <;> simp_all
    · unfold applyDefaults
      dsimp only
      split <;> simp_all
    · intro hp
      simp [applyDefaults, hp]
    · intro hp
      simp [applyDefaults, hp]
    · intro hp
      simp [applyDefaults, hp]

/-- Witness for `init_defaults` at the C6 scenario config with an
existing bucket. -/
theorem init_defaults_witness :
    (initFn envA c6conf).error = none ∧
    (∃ ec, (initFn envA c6conf).effConf = some ec ∧
      0 < ec.presignTTL ∧ ec.cacheControl ≠ "" ∧ ec.serveURL ≠ "" ∧
      (c6conf.presignTTL ≤ 0 → ec.presignTTL = 120) ∧
      (c6conf.cacheControl = "" → ec.cacheControl = "no-cache, must-revalidate") ∧
      (c6conf.serveURL = "" → ec.serveURL = "/v0/file/s/")) :=
  ⟨rfl, init_defaults envA c6conf rfl⟩

/-- C7: if the bucket-existence probe succeeds, `Init` returns success
immediately with no create or CORS call; if creation fails with code
`BucketAlreadyExists`, `BucketAlreadyOwnedByYou` or `OperationAborted`,
the error is cleared as a benign race; any other creation failure is
returned as fatal. -/
theorem init_provisioning (env : InitEnv) (conf : Awsconfig) :
    (env.headBucket = none →
      initProvision env conf = ⟨none, some conf, true, false, false⟩) ∧
    (∀ msg code cmsg,
      env.headBucket = some (.coded "NoSuchBucket" msg) →
      env.createBucket = some (.coded code cmsg) →
      (code = "BucketAlreadyExists" ∨ code = "BucketAlreadyOwnedByYou" ∨
        code = "OperationAborted") →
      (initProvision env conf).error = none ∧
      (initProvision env conf).calledCreate = true) ∧
    (∀ msg cerr,
      env.headBucket = some (.coded "NoSuchBucket" msg) →
      env.createBucket = some cerr →
      (∀ code cmsg, cerr = .coded code cmsg →
        code ≠ "BucketAlreadyExists" ∧ code ≠ "BucketAlreadyOwnedByYou" ∧
          code ≠ "OperationAborted") →
      (initProvision env conf).error = some (.awsErr cerr)) := by
  refine ⟨?_, ?_, ?_⟩
  · intro h
    simp [initProvision, h]
  · intro msg code cmsg hh hc hcode
    have hben : benignCreateErr (.coded code cmsg) = true := by
      rcases hcode with rfl | rfl | rfl <;> simp [benignCreateErr]
    simp [initProvision, hh, hc, hardHeadErr, hben]
  · intro msg cerr hh hc hcode
    have hben : benignCreateErr cerr = false := by
      rcases cerr with ⟨code, cmsg⟩ | m
      · obtain ⟨h1, h2, h3⟩ := hcode code _ rfl
        simp [benignCreateErr, h1, h2, h3]
      · simp [benignCreateErr]
    simp [initProvision, hh, hc, hardHeadErr, hben]

/-- Witness for `init_provisioning`: existing bucket (`envA`), benign
race (`envB`), fatal creation error (`envC`). -/
theorem init_provisioning_witness :
    initProvision envA conf1 = ⟨none, some conf1, true, false, false⟩ ∧
    (initProvision envB conf1).error = none ∧
    (initProvision envC conf1).error = some (.awsErr (.plain "net down")) :=
  ⟨(init_provisioning envA conf1).1 rfl,
   ((init_provisioning envB conf1).2.1 "nsb" "BucketAlreadyExists" "dup"
     rfl rfl (Or.inl rfl)).1,
   (init_provisioning envC conf1).2.2 "nsb" (.plain "net down") rfl rfl
     (by intro code cmsg h; cases h)⟩

/-! ### Claims about `Upload` -/

/-- Draining the counted stream adds exactly the total chunk length to
the counter. -/
lemma readAll_count (chunks : List (List Nat)) (n : Int) :
    (ReaderCounter.readAll ⟨n, chunks⟩).count =
      n + ((chunks.map List.length).sum : Nat) := by
  induction chunks generalizing n with
  | nil => simp [ReaderCounter.readAll]
  | cons c rest ih =>
    rw [ReaderCounter.readAll]
    simp only [ih, List.map_cons, List.sum_cons]
    push_cast
    ring

/-- Upload environment: marking the record fails. -/
def env8 : UploadEnv :=
  ⟨some "db down", .ok ⟨none⟩, string32fix, fun _ => []⟩

/-- Upload environment: marking succeeds, the backend accepts the object
and reports a quoted ETag, `.png` is inferred for `image/png`. -/
def env9 : UploadEnv :=
  ⟨none, .ok ⟨some "\"E\""⟩, string32fix,
   fun m => if m = "image/png" then [".png"] else []⟩

/-- A five-byte stream split into two chunks. -/
def file9 : List (List Nat) := [[1, 2, 3], [4, 5]]

/-- C8: if marking the record as upload-in-progress fails, `Upload`
returns an empty URL, zero bytes and that error, leaves the record
unchanged, and never invokes the backend upload operation. -/
theorem upload_failFast (conf : Awsconfig) (env : UploadEnv)
    (fdef : FileDef) (file : List (List Nat)) (e : String)
    (h : env.startUpload = some e) :
    uploadFn conf env fdef file = ⟨"", 0, some (.storeErr e), fdef, false⟩ := by
  simp [uploadFn, h]

/-- Witness for `upload_failFast` at the `env8` fixture. -/
theorem upload_failFast_witness :
    uploadFn conf1 env8 fdef1 file9 =
      ⟨"", 0, some (.storeErr "db down"), fdef1, false⟩ :=
  upload_failFast conf1 env8 fdef1 file9 "db down" rfl

/-- C9: a successful upload of a stream of `N` bytes returns exactly `N`
bytes written, the public URL composed of the configured serve-URL
prefix, the record id and the first extension inferred from its MIME
type, and updates the record's location to the derived storage key and
its ETag to the backend tag with surrounding quotes stripped. -/
theorem upload_success (conf : Awsconfig) (env : UploadEnv)
    (fdef : FileDef) (file : List (List Nat)) (t e : String)
    (rest : List String)
    (hs : env.startUpload = none)
    (hu : env.uploadResult = .ok ⟨some t⟩)
    (hx : env.extensionsByType fdef.mimeType = e :: rest) :
    uploadFn conf env fdef file =
      ⟨conf.serveURL ++ (fdef.id ++ e), ((file.map List.length).sum : Nat),
       none,
       { fdef with
         location := env.string32 fdef.uid
         etag := trimQuotes t },
       true⟩ := by
  simp [uploadFn, hs, hu, hx, readAll_count]

/-- Witness for `upload_success`: a five-byte `image/png` upload at the
`env9` fixture. -/
theorem upload_success_witness :
    uploadFn conf1 env9 fdef1 file9 =
      ⟨conf1.serveURL ++ (fdef1.id ++ ".png"),
       ((file9.map List.length).sum : Nat), none,
       { fdef1 with
         location := env9.string32 fdef1.uid
         etag := trimQuotes "\"E\"" },
       true⟩ :=
  upload_success conf1 env9 fdef1 file9 "\"E\"" ".png" [] rfl rfl (by decide)

end S3Media
